import Mathlib

/-!
Data headers of package `o2dh`.

A shallow embedding of `o2dh/dataheader.go`: the fixed-width tag types, their
sentinel constants, and the accessors of the 32-byte `RAWDataHeader`.

Conventions of the embedding:
* a Go `byte` is a `Fin 256`; wider unsigned integers are `Nat`, reduced
  `% 2 ^ w` wherever the Go expression could wrap;
* a Go array `[n]byte` is a list of bytes carrying the proof that its length
  is `n`; a Go slice `[]byte` and a Go `string` are lists of bytes;
* a Go function that can panic returns `Except Panic _`.
-/

namespace O2dh

/-! ## Bytes, arrays, slices -/

/-- Go `byte`. -/
abbrev Byte := Fin 256

/-- The ways the embedded code can panic. -/
inductive Panic where
  | indexOutOfRange
  | sliceBoundsOutOfRange
  | message (text : String)
  deriving DecidableEq, Repr

/-- Go `[n]byte`: exactly `n` bytes. -/
structure ByteArr (n : Nat) where
  data : List Byte
  size_eq : data.length = n
  deriving DecidableEq, Repr

/-- Go composite literal `[n]byte{b0, b1, ...}`: the listed bytes, the remaining
positions zero.  (More than `n` elements does not compile in Go; the surplus is
cut off here.) -/
def ByteArr.lit (n : Nat) (elems : List Byte) : ByteArr n :=
  ⟨(elems ++ List.replicate (n - elems.length) 0).take n, by
    simp only [List.length_take, List.length_append, List.length_replicate]
    omega⟩

/-- Go rune literal converted to `byte`. -/
def ch (c : Char) : Byte := Fin.ofNat c.toNat

/-- Go index expression `s[i]` on a slice. -/
def index (s : List Byte) (i : Nat) : Except Panic Byte :=
  match s[i]? with
  | some b => .ok b
  | none => .error .indexOutOfRange

/-- Go index expression `a[i]` on an array. -/
def ByteArr.at {n : Nat} (a : ByteArr n) (i : Nat) : Except Panic Byte :=
  index a.data i

/-- Go slice expression `a[lo:hi]` on an array of length `n`:
requires `lo ≤ hi ≤ n`. -/
def ByteArr.slice {n : Nat} (a : ByteArr n) (lo hi : Nat) : Except Panic (List Byte) :=
  if lo ≤ hi ∧ hi ≤ n then .ok ((a.data.drop lo).take (hi - lo))
  else .error .sliceBoundsOutOfRange

/-- Go `string(a[:])`: the bytes of the whole array, as a string. -/
def ByteArr.toGoString {n : Nat} (a : ByteArr n) : List Byte :=
  (a.data.drop 0).take (n - 0)

/-- The bytes of a Go string literal made of ASCII characters. -/
def goString (s : String) : List Byte := s.toList.map ch

/-! ## `encoding/binary`, little endian -/

/-- Go `binary.LittleEndian.Uint16`:
`_ = b[1]; return uint16(b[0]) | uint16(b[1])<<8`. -/
def LittleEndian.Uint16 (b : List Byte) : Except Panic Nat := do
  let _ ← index b 1
  let b0 ← index b 0
  let b1 ← index b 1
  pure (b0.val ||| ((b1.val <<< 8) % 2 ^ 16))

/-- Go `binary.LittleEndian.Uint32`:
`_ = b[3]; return uint32(b[0]) | uint32(b[1])<<8 | uint32(b[2])<<16 | uint32(b[3])<<24`. -/
def LittleEndian.Uint32 (b : List Byte) : Except Panic Nat := do
  let _ ← index b 3
  let b0 ← index b 0
  let b1 ← index b 1
  let b2 ← index b 2
  let b3 ← index b 3
  pure (((b0.val ||| ((b1.val <<< 8) % 2 ^ 32)) ||| ((b2.val <<< 16) % 2 ^ 32))
    ||| ((b3.val <<< 24) % 2 ^ 32))

/-! ## Sizes and tag types -/

def sizeMagicString : Nat := 4
def sizeDataOriginString : Nat := 4
def sizeSerializationMethodString : Nat := 8
def sizeDataDescriptionString : Nat := 16
def sizeHeaderDescriptionString : Nat := 8

/-- Go `type HeaderType [sizeDataDescriptionString]byte`. -/
structure HeaderType where
  arr : ByteArr sizeDataDescriptionString
  deriving DecidableEq, Repr

/-- Go `type SerializationMethod [sizeSerializationMethodString]byte`. -/
structure SerializationMethod where
  arr : ByteArr sizeSerializationMethodString
  deriving DecidableEq, Repr

/-- Go `type DataOrigin [sizeDataOriginString]byte`. -/
structure DataOrigin where
  arr : ByteArr sizeDataOriginString
  deriving DecidableEq, Repr

/-- Go `type DataDescription [sizeDataDescriptionString]byte`. -/
structure DataDescription where
  arr : ByteArr sizeDataDescriptionString
  deriving DecidableEq, Repr

/-- Go `func (hdr HeaderType) String() string { return string(hdr[:]) }`. -/
def HeaderType.String (hdr : HeaderType) : List Byte := hdr.arr.toGoString

/-- Go `func (sm SerializationMethod) String() string { return string(sm[:]) }`. -/
def SerializationMethod.String (sm : SerializationMethod) : List Byte := sm.arr.toGoString

/-- Go `func (do DataOrigin) String() string { return string(do[:]) }`. -/
def DataOrigin.String (d : DataOrigin) : List Byte := d.arr.toGoString

/-- Go `func (descr DataDescription) String() string { return string(descr[:]) }`. -/
def DataDescription.String (descr : DataDescription) : List Byte := descr.arr.toGoString

def SerializationMethodAny : SerializationMethod :=
  ⟨ByteArr.lit _ [ch '*', ch '*', ch '*', ch '*', ch '*', ch '*', ch '*', ch '*']⟩
def SerializationMethodInvalid : SerializationMethod :=
  ⟨ByteArr.lit _ [ch 'I', ch 'N', ch 'V', ch 'A', ch 'L', ch 'I', ch 'D']⟩
def SerializationMethodNone : SerializationMethod :=
  ⟨ByteArr.lit _ [ch 'N', ch 'O', ch 'N', ch 'E']⟩
def SerializationMethodROOT : SerializationMethod :=
  ⟨ByteArr.lit _ [ch 'R', ch 'O', ch 'O', ch 'T']⟩
def SerializationMethodFlatBuf : SerializationMethod :=
  ⟨ByteArr.lit _ [ch 'F', ch 'L', ch 'A', ch 'T', ch 'B', ch 'U', ch 'F']⟩

def DataOriginAny : DataOrigin := ⟨ByteArr.lit _ [ch '*', ch '*', ch '*']⟩
def DataOriginInvalid : DataOrigin := ⟨ByteArr.lit _ [ch 'N', ch 'I', ch 'L']⟩
def DataOriginFLP : DataOrigin := ⟨ByteArr.lit _ [ch 'F', ch 'L', ch 'P']⟩
def DataOriginACO : DataOrigin := ⟨ByteArr.lit _ [ch 'A', ch 'C', ch 'O']⟩
def DataOriginCPV : DataOrigin := ⟨ByteArr.lit _ [ch 'C', ch 'P', ch 'V']⟩
def DataOriginCTP : DataOrigin := ⟨ByteArr.lit _ [ch 'C', ch 'T', ch 'P']⟩
def DataOriginEMC : DataOrigin := ⟨ByteArr.lit _ [ch 'E', ch 'M', ch 'C']⟩
def DataOriginFIT : DataOrigin := ⟨ByteArr.lit _ [ch 'F', ch 'I', ch 'T']⟩
def DataOriginHMP : DataOrigin := ⟨ByteArr.lit _ [ch 'H', ch 'M', ch 'P']⟩
def DataOriginITS : DataOrigin := ⟨ByteArr.lit _ [ch 'I', ch 'T', ch 'S']⟩
def DataOriginMCH : DataOrigin := ⟨ByteArr.lit _ [ch 'M', ch 'C', ch 'H']⟩
def DataOriginMFT : DataOrigin := ⟨ByteArr.lit _ [ch 'M', ch 'F', ch 'T']⟩
def DataOriginMID : DataOrigin := ⟨ByteArr.lit _ [ch 'M', ch 'I', ch 'D']⟩
def DataOriginPHS : DataOrigin := ⟨ByteArr.lit _ [ch 'P', ch 'H', ch 'S']⟩
def DataOriginTOF : DataOrigin := ⟨ByteArr.lit _ [ch 'T', ch 'O', ch 'F']⟩
def DataOriginTPC : DataOrigin := ⟨ByteArr.lit _ [ch 'T', ch 'P', ch 'C']⟩
def DataOriginTRD : DataOrigin := ⟨ByteArr.lit _ [ch 'T', ch 'R', ch 'D']⟩
def DataOriginZDC : DataOrigin := ⟨ByteArr.lit _ [ch 'Z', ch 'D', ch 'C']⟩

def DataDescriptionAny : DataDescription :=
  ⟨ByteArr.lit _ [ch '*', ch '*', ch '*', ch '*', ch '*', ch '*', ch '*',
    ch '*', ch '*', ch '*', ch '*', ch '*', ch '*', ch '*', ch '*']⟩
def DataDescriptionInvalid : DataDescription :=
  ⟨ByteArr.lit _ [ch 'I', ch 'N', ch 'V', ch 'A', ch 'L', ch 'I',
    ch 'D', ch '_', ch 'D', ch 'E', ch 'S', ch 'C']⟩
def DataDescriptionRawData : DataDescription :=
  ⟨ByteArr.lit _ [ch 'R', ch 'A', ch 'W',
    ch 'D', ch 'A', ch 'T', ch 'A']⟩
def DataDescriptionClusters : DataDescription :=
  ⟨ByteArr.lit _ [ch 'C', ch 'L', ch 'U', ch 'S',
    ch 'T', ch 'E', ch 'R', ch 'S']⟩
def DataDescriptionTracks : DataDescription :=
  ⟨ByteArr.lit _ [ch 'T', ch 'R', ch 'A',
    ch 'C', ch 'K', ch 'S']⟩
def DataDescriptionConfig : DataDescription :=
  ⟨ByteArr.lit _ [ch 'C', ch 'O', ch 'N', ch 'F', ch 'I', ch 'G',
    ch 'U', ch 'R', ch 'A', ch 'T', ch 'I', ch 'O', ch 'N']⟩
def DataDescriptionInfo : DataDescription :=
  ⟨ByteArr.lit _ [ch 'I', ch 'N', ch 'F', ch 'O', ch 'R',
    ch 'M', ch 'A', ch 'T', ch 'I', ch 'O', ch 'N']⟩
def DataDescriptionROOTStreamers : DataDescription :=
  ⟨ByteArr.lit _ [ch 'R', ch 'O', ch 'O', ch 'T', ch ' ', ch 'S', ch 'T',
    ch 'R', ch 'E', ch 'A', ch 'M', ch 'E', ch 'R', ch 'S']⟩

/-! ## RAWDataHeader -/

/-- Go `type RAWDataHeader struct { Word0, Word1, Word2, Word3 [8]byte }`. -/
structure RAWDataHeader where
  Word0 : ByteArr 8
  Word1 : ByteArr 8
  Word2 : ByteArr 8
  Word3 : ByteArr 8
  deriving DecidableEq, Repr

namespace RAWDataHeader

/-- Go `return rdh.Word0[0]`. -/
def Version (rdh : RAWDataHeader) : Except Panic Nat := do
  let b ← rdh.Word0.at 0
  pure b.val

/-- Go `return binary.LittleEndian.Uint16(rdh.Word0[1:3])`. -/
def BlockLength (rdh : RAWDataHeader) : Except Panic Nat := do
  let s ← rdh.Word0.slice 1 3
  LittleEndian.Uint16 s

/-- Go `return binary.LittleEndian.Uint16(rdh.Word0[3:5])`. -/
def FEEID (rdh : RAWDataHeader) : Except Panic Nat := do
  let s ← rdh.Word0.slice 3 5
  LittleEndian.Uint16 s

/-- Go `return rdh.Word0[5]`. -/
def LinkID (rdh : RAWDataHeader) : Except Panic Nat := do
  let b ← rdh.Word0.at 5
  pure b.val

/-- Go `return rdh.Word0[6]`. -/
def HeaderSize (rdh : RAWDataHeader) : Except Panic Nat := do
  let b ← rdh.Word0.at 6
  pure b.val

/-- Go `return binary.LittleEndian.Uint32(rdh.Word1[0:4])`. -/
def TriggerOrbit (rdh : RAWDataHeader) : Except Panic Nat := do
  let s ← rdh.Word1.slice 0 4
  LittleEndian.Uint32 s

/-- Go `return binary.LittleEndian.Uint32(rdh.Word1[4:8])`. -/
def HeartbeatOrbit (rdh : RAWDataHeader) : Except Panic Nat := do
  let s ← rdh.Word1.slice 4 8
  LittleEndian.Uint32 s

/-- Go `panic("not implemented")`. -/
def TriggerBCID (_rdh : RAWDataHeader) : Except Panic Nat :=
  .error (.message "not implemented")

/-- Go `panic("not implemented")`. -/
def TriggerType (_rdh : RAWDataHeader) : Except Panic Nat :=
  .error (.message "not implemented")

/-- Go `panic("not implemented")`. -/
def HeartbeatBCID (_rdh : RAWDataHeader) : Except Panic Nat :=
  .error (.message "not implemented")

/-- Go `return binary.LittleEndian.Uint16(rdh.Word3[0:2])`. -/
def PagesCounter (rdh : RAWDataHeader) : Except Panic Nat := do
  let s ← rdh.Word3.slice 0 2
  LittleEndian.Uint16 s

/-- Go `return rdh.Word2[2]`. -/
def StopCode (rdh : RAWDataHeader) : Except Panic Nat := do
  let b ← rdh.Word2.at 2
  pure b.val

/-- Go `return binary.LittleEndian.Uint16(rdh.Word2[3:5])`. -/
def DetectorField (rdh : RAWDataHeader) : Except Panic Nat := do
  let s ← rdh.Word2.slice 3 5
  LittleEndian.Uint16 s

/-- Go `return binary.LittleEndian.Uint16(rdh.Word2[5:7])`. -/
def Par (rdh : RAWDataHeader) : Except Panic Nat := do
  let s ← rdh.Word2.slice 5 7
  LittleEndian.Uint16 s

end RAWDataHeader

/-! ## Specification-side notions -/

/-- The little-endian value of a byte sequence: `sum of bs[i] * 256 ^ i`. -/
def leValue : List Byte → Nat
  | [] => 0
  | b :: bs => b.val + 256 * leValue bs

/-- The example word 0 of the specification. -/
def exampleWord0 : ByteArr 8 :=
  ByteArr.lit 8 [0x01, 0x08, 0x00, 0x12, 0x34, 0x05, 0x08, 0x00]

/-- The header whose 32 bytes are all zero. -/
def zeroHeader : RAWDataHeader :=
  ⟨ByteArr.lit 8 [], ByteArr.lit 8 [], ByteArr.lit 8 [], ByteArr.lit 8 []⟩

/-- A header whose word 2 carries the bytes 1, 2, 3 at positions 2, 3, 5 and
whose other words are zero. -/
def word2Header : RAWDataHeader :=
  ⟨ByteArr.lit 8 [], ByteArr.lit 8 [], ByteArr.lit 8 [0, 0, 1, 2, 0, 3], ByteArr.lit 8 []⟩

/-! ## The header stack -/

/-- Go `uint32`. -/
abbrev GoUint32 := Fin (2 ^ 32)

/-- Go `uint64`. -/
abbrev GoUint64 := Fin (2 ^ 64)

/-- Go `type BaseHeader struct`: magic, hdrsz, flags, hvers, descr, serzm. -/
structure BaseHeader where
  magic : ByteArr sizeMagicString
  hdrsz : GoUint32
  flags : GoUint32
  hvers : GoUint32
  descr : HeaderType
  serzm : SerializationMethod
  deriving DecidableEq, Repr

/-- Go `type DataHeader struct`; the blank field `_ uint32` is called `reserved`. -/
structure DataHeader where
  Base : BaseHeader
  Descr : DataDescription
  Origin : DataOrigin
  reserved : GoUint32
  Serialization : SerializationMethod
  SubSpecification : GoUint64
  PayloadSize : GoUint64
  deriving DecidableEq, Repr

/-- Go `type NameHeader struct { Base BaseHeader; HdrName string }`. -/
structure NameHeader where
  Base : BaseHeader
  HdrName : List Byte
  deriving DecidableEq, Repr

/-- Go `func (NameHeader) Version() uint32 { return 1 }`. -/
def NameHeader.Version (_h : NameHeader) : Nat := 1

/-- Go `func (NameHeader) HeaderType() HeaderType
{ return HeaderType{'N', 'a', 'm', 'e', 'H', 'e', 'a', 'd'} }`. -/
def NameHeader.HeaderType (_h : NameHeader) : O2dh.HeaderType :=
  ⟨ByteArr.lit _ [ch 'N', ch 'a', ch 'm', ch 'e', ch 'H', ch 'e', ch 'a', ch 'd']⟩

/-! ## Struct layout -/

/-- What the layout of a struct needs to know of a field: its size and its
alignment, in bytes. -/
structure FieldLayout where
  name : String
  size : Nat
  align : Nat
  deriving DecidableEq, Repr

/-- The least multiple of `a` that is at least `off`. -/
def alignUp (off a : Nat) : Nat := (off + a - 1) / a * a

/-- Offsets of the fields laid out in declaration order from `off`, each field moved
up to the next multiple of its alignment. -/
def alignedOffsets (off : Nat) : List FieldLayout → List Nat
  | [] => []
  | f :: fs => alignUp off f.align :: alignedOffsets (alignUp off f.align + f.size) fs

/-- Offsets of the fields laid out in declaration order from `off` with no padding at
all. -/
def packedOffsets (off : Nat) : List FieldLayout → List Nat
  | [] => []
  | f :: fs => off :: packedOffsets (off + f.size) fs

/-- Alignment of a struct: the largest alignment among its fields. -/
def structAlign (fs : List FieldLayout) : Nat := (fs.map FieldLayout.align).foldl max 1

/-- End of the last field under aligned layout. -/
def alignedEnd (off : Nat) : List FieldLayout → Nat
  | [] => off
  | f :: fs => alignedEnd (alignUp off f.align + f.size) fs

/-- Size of a struct: the end of its last field, rounded up to the struct's
alignment. -/
def structSize (fs : List FieldLayout) : Nat := alignUp (alignedEnd 0 fs) (structAlign fs)

/-- The fields of `BaseHeader`, in declaration order: byte arrays have alignment 1,
`uint32` has size and alignment 4. -/
def baseHeaderFields : List FieldLayout :=
  [⟨"magic", sizeMagicString, 1⟩, ⟨"hdrsz", 4, 4⟩, ⟨"flags", 4, 4⟩, ⟨"hvers", 4, 4⟩,
   ⟨"descr", sizeDataDescriptionString, 1⟩, ⟨"serzm", sizeSerializationMethodString, 1⟩]

/-- The fields of `DataHeader`, in declaration order: the embedded `BaseHeader`, then
the byte arrays (alignment 1), the blank `uint32` and the two `uint64` (size and
alignment 8). -/
def dataHeaderFields : List FieldLayout :=
  [⟨"Base", structSize baseHeaderFields, structAlign baseHeaderFields⟩,
   ⟨"Descr", sizeDataDescriptionString, 1⟩, ⟨"Origin", sizeDataOriginString, 1⟩,
   ⟨"_", 4, 4⟩, ⟨"Serialization", sizeSerializationMethodString, 1⟩,
   ⟨"SubSpecification", 8, 8⟩, ⟨"PayloadSize", 8, 8⟩]

/-! ## Fields of the RAWDataHeader table -/

/-- The eleven accessors of `RAWDataHeader` that are implemented. -/
inductive Field where
  | Version | BlockLength | FEEID | LinkID | HeaderSize | TriggerOrbit | HeartbeatOrbit
  | StopCode | DetectorField | Par | PagesCounter
  deriving DecidableEq, Repr

/-- The accessor of a field, called on a header. -/
def RAWDataHeader.read (rdh : RAWDataHeader) : Field → Except Panic Nat
  | .Version => rdh.Version
  | .BlockLength => rdh.BlockLength
  | .FEEID => rdh.FEEID
  | .LinkID => rdh.LinkID
  | .HeaderSize => rdh.HeaderSize
  | .TriggerOrbit => rdh.TriggerOrbit
  | .HeartbeatOrbit => rdh.HeartbeatOrbit
  | .StopCode => rdh.StopCode
  | .DetectorField => rdh.DetectorField
  | .Par => rdh.Par
  | .PagesCounter => rdh.PagesCounter

/-- The array `a` with its byte `i` replaced by `v`. -/
def ByteArr.set {n : Nat} (a : ByteArr n) (i : Nat) (v : Byte) : ByteArr n :=
  ⟨a.data.set i v, by rw [List.length_set]; exact a.size_eq⟩

/-- The header `rdh` with byte `i` of word `k` replaced by `v`. -/
def RAWDataHeader.setByte (rdh : RAWDataHeader) (k : Fin 4) (i : Fin 8) (v : Byte) :
    RAWDataHeader :=
  match k with
  | 0 => { rdh with Word0 := rdh.Word0.set i.val v }
  | 1 => { rdh with Word1 := rdh.Word1.set i.val v }
  | 2 => { rdh with Word2 := rdh.Word2.set i.val v }
  | 3 => { rdh with Word3 := rdh.Word3.set i.val v }

/-- The accessor that reads byte `i` of word `k`; for a byte that no accessor reads
the choice is immaterial. -/
def byteOwner (k : Fin 4) (i : Fin 8) : Field :=
  match k, i with
  | 0, 0 => .Version
  | 0, 1 => .BlockLength
  | 0, 2 => .BlockLength
  | 0, 3 => .FEEID
  | 0, 4 => .FEEID
  | 0, 5 => .LinkID
  | 0, 6 => .HeaderSize
  | 0, 7 => .Version
  | 1, 0 => .TriggerOrbit
  | 1, 1 => .TriggerOrbit
  | 1, 2 => .TriggerOrbit
  | 1, 3 => .TriggerOrbit
  | 1, _ => .HeartbeatOrbit
  | 2, 3 => .DetectorField
  | 2, 4 => .DetectorField
  | 2, 5 => .Par
  | 2, 6 => .Par
  | 2, _ => .StopCode
  | 3, _ => .PagesCounter

/-- The value of byte `i` of a byte sequence, 0 past its end. -/
def byteAt (l : List Byte) (i : Nat) : Nat := (l.getD i 0).val

/-- The value each field of the table has in a header, written with the bytes of the
header's words. -/
def RAWDataHeader.fieldValue (rdh : RAWDataHeader) : Field → Nat
  | .Version => byteAt rdh.Word0.data 0
  | .BlockLength => byteAt rdh.Word0.data 1 + 256 * byteAt rdh.Word0.data 2
  | .FEEID => byteAt rdh.Word0.data 3 + 256 * byteAt rdh.Word0.data 4
  | .LinkID => byteAt rdh.Word0.data 5
  | .HeaderSize => byteAt rdh.Word0.data 6
  | .TriggerOrbit => byteAt rdh.Word1.data 0 + 256 * byteAt rdh.Word1.data 1
      + 65536 * byteAt rdh.Word1.data 2 + 16777216 * byteAt rdh.Word1.data 3
  | .HeartbeatOrbit => byteAt rdh.Word1.data 4 + 256 * byteAt rdh.Word1.data 5
      + 65536 * byteAt rdh.Word1.data 6 + 16777216 * byteAt rdh.Word1.data 7
  | .StopCode => byteAt rdh.Word2.data 2
  | .DetectorField => byteAt rdh.Word2.data 3 + 256 * byteAt rdh.Word2.data 4
  | .Par => byteAt rdh.Word2.data 5 + 256 * byteAt rdh.Word2.data 6
  | .PagesCounter => byteAt rdh.Word3.data 0 + 256 * byteAt rdh.Word3.data 1

/-- The values of the eleven table fields. -/
structure RDHFields where
  version : Nat
  blockLength : Nat
  feeID : Nat
  linkID : Nat
  headerSize : Nat
  triggerOrbit : Nat
  heartbeatOrbit : Nat
  stopCode : Nat
  detectorField : Nat
  par : Nat
  pagesCounter : Nat
  deriving DecidableEq, Repr

/-- Field values are valid when each fits the width the table gives its field. -/
def RDHFields.Valid (f : RDHFields) : Prop :=
  f.version < 2 ^ 8 ∧ f.blockLength < 2 ^ 16 ∧ f.feeID < 2 ^ 16 ∧ f.linkID < 2 ^ 8 ∧
  f.headerSize < 2 ^ 8 ∧ f.triggerOrbit < 2 ^ 32 ∧ f.heartbeatOrbit < 2 ^ 32 ∧
  f.stopCode < 2 ^ 8 ∧ f.detectorField < 2 ^ 16 ∧ f.par < 2 ^ 16 ∧
  f.pagesCounter < 2 ^ 16

/-- The `n` low bytes of `w`, least significant first. -/
def ByteArr.ofLE : (n : Nat) → Nat → ByteArr n
  | 0, _ => ⟨[], rfl⟩
  | n + 1, w =>
    ⟨⟨w % 256, Nat.mod_lt w (by decide)⟩ :: (ByteArr.ofLE n (w / 256)).data, by
      rw [List.length_cons, (ByteArr.ofLE n (w / 256)).size_eq]⟩

/-- Modelled from the spec: the repository has no encoder for `RAWDataHeader`.
Section 4.4 of the specification describes it as the mirror of the accessors: each
field is packed into its word at the bit position of the field table (word 0:
version at bit 0, block length at 8, FEE id at 24, link id at 40, header size at 48;
word 1: trigger orbit at 0, heartbeat orbit at 32; word 2: stop code at 16, detector
field at 24, par at 40; word 3: pages counter at 0), every other bit is zero, and
each word is written as 8 little-endian bytes. -/
def RAWDataHeader.encode (f : RDHFields) : RAWDataHeader where
  Word0 := ByteArr.ofLE 8 (f.version + 2 ^ 8 * f.blockLength + 2 ^ 24 * f.feeID
    + 2 ^ 40 * f.linkID + 2 ^ 48 * f.headerSize)
  Word1 := ByteArr.ofLE 8 (f.triggerOrbit + 2 ^ 32 * f.heartbeatOrbit)
  Word2 := ByteArr.ofLE 8 (2 ^ 16 * f.stopCode + 2 ^ 24 * f.detectorField + 2 ^ 40 * f.par)
  Word3 := ByteArr.ofLE 8 f.pagesCounter

/-- Decoding a header: every accessor of the field table is called and the results
are collected. -/
def RAWDataHeader.decode (rdh : RAWDataHeader) : Except Panic RDHFields := do
  let version ← rdh.Version
  let blockLength ← rdh.BlockLength
  let feeID ← rdh.FEEID
  let linkID ← rdh.LinkID
  let headerSize ← rdh.HeaderSize
  let triggerOrbit ← rdh.TriggerOrbit
  let heartbeatOrbit ← rdh.HeartbeatOrbit
  let stopCode ← rdh.StopCode
  let detectorField ← rdh.DetectorField
  let par ← rdh.Par
  let pagesCounter ← rdh.PagesCounter
  pure { version, blockLength, feeID, linkID, headerSize, triggerOrbit, heartbeatOrbit,
         stopCode, detectorField, par, pagesCounter }

/-- Field values used as a sample: the example of word 0, orbits 7 and 9, stop code 1,
detector field 0x0102, par 0x0304, page 2. -/
def sampleFields : RDHFields :=
  { version := 1, blockLength := 8, feeID := 0x3412, linkID := 5, headerSize := 8,
    triggerOrbit := 7, heartbeatOrbit := 9, stopCode := 1, detectorField := 0x0102,
    par := 0x0304, pagesCounter := 2 }

/-- The sentinel constants of kind `SerializationMethod`, in declaration order. -/
def serializationMethods : List SerializationMethod :=
  [SerializationMethodAny, SerializationMethodInvalid, SerializationMethodNone,
   SerializationMethodROOT, SerializationMethodFlatBuf]

/-- The sentinel constants of kind `DataOrigin`, in declaration order. -/
def dataOrigins : List DataOrigin :=
  [DataOriginAny, DataOriginInvalid, DataOriginFLP, DataOriginACO, DataOriginCPV,
   DataOriginCTP, DataOriginEMC, DataOriginFIT, DataOriginHMP, DataOriginITS,
   DataOriginMCH, DataOriginMFT, DataOriginMID, DataOriginPHS, DataOriginTOF,
   DataOriginTPC, DataOriginTRD, DataOriginZDC]

/-- The sentinel constants of kind `DataDescription`, in declaration order. -/
def dataDescriptions : List DataDescription :=
  [DataDescriptionAny, DataDescriptionInvalid, DataDescriptionRawData,
   DataDescriptionClusters, DataDescriptionTracks, DataDescriptionConfig,
   DataDescriptionInfo, DataDescriptionROOTStreamers]

/-! ## Auxiliary lemmas -/

theorem or_shiftLeft_eq_add (x y k : Nat) (hx : x < 2 ^ k) :
    x ||| (y <<< k) = x + 2 ^ k * y := by
  rw [Nat.shiftLeft_eq, Nat.mul_comm y, Nat.or_comm, ← Nat.mul_add_lt_is_or hx, Nat.add_comm]

theorem ByteArr.ext_data {n : Nat} {a b : ByteArr n} (h : a.data = b.data) : a = b := by
  cases a; cases b; simp_all

theorem ByteArr.data_eight (w : ByteArr 8) :
    ∃ b0 b1 b2 b3 b4 b5 b6 b7 : Byte, w.data = [b0, b1, b2, b3, b4, b5, b6, b7] := by
  obtain ⟨l, hl⟩ := w
  rcases l with _ | ⟨b0, _ | ⟨b1, _ | ⟨b2, _ | ⟨b3, _ | ⟨b4, _ | ⟨b5, _ | ⟨b6, _ | ⟨b7, _ | ⟨b8, t⟩⟩⟩⟩⟩⟩⟩⟩⟩
  all_goals first
    | exact ⟨_, _, _, _, _, _, _, _, rfl⟩
    | (simp at hl)

theorem ByteArr.toGoString_eq {n : Nat} (a : ByteArr n) : a.toGoString = a.data := by
  obtain ⟨l, rfl⟩ := a
  simp [ByteArr.toGoString]

theorem LittleEndian.Uint16_pair (a b : Byte) :
    LittleEndian.Uint16 [a, b] = .ok (a.val + 256 * b.val) := by
  have ha := a.isLt
  have hb := b.isLt
  have h1 : (b.val <<< 8) % 2 ^ 16 = b.val <<< 8 := by
    rw [Nat.shiftLeft_eq]; omega
  have h2 := or_shiftLeft_eq_add a.val b.val 8 (by omega)
  show Except.ok (a.val ||| ((b.val <<< 8) % 2 ^ 16)) = _
  rw [h1, h2]
  norm_num

theorem LittleEndian.Uint32_quad (a b c d : Byte) :
    LittleEndian.Uint32 [a, b, c, d]
      = .ok (a.val + 256 * b.val + 65536 * c.val + 16777216 * d.val) := by
  have ha := a.isLt
  have hb := b.isLt
  have hc := c.isLt
  have hd := d.isLt
  have h1 : (b.val <<< 8) % 2 ^ 32 = b.val <<< 8 := by
    rw [Nat.shiftLeft_eq]; omega
  have h2 : (c.val <<< 16) % 2 ^ 32 = c.val <<< 16 := by
    rw [Nat.shiftLeft_eq]; omega
  have h3 : (d.val <<< 24) % 2 ^ 32 = d.val <<< 24 := by
    rw [Nat.shiftLeft_eq]; omega
  have e1 := or_shiftLeft_eq_add a.val b.val 8 (by omega)
  have e2 := or_shiftLeft_eq_add (a.val + 2 ^ 8 * b.val) c.val 16 (by omega)
  have e3 := or_shiftLeft_eq_add (a.val + 2 ^ 8 * b.val + 2 ^ 16 * c.val) d.val 24 (by omega)
  show Except.ok (((a.val ||| ((b.val <<< 8) % 2 ^ 32)) ||| ((c.val <<< 16) % 2 ^ 32))
    ||| ((d.val <<< 24) % 2 ^ 32)) = _
  rw [h1, h2, h3, e1, e2, e3]
  norm_num

/-- What the five accessors of word 0 compute, in terms of its bytes. -/
theorem RAWDataHeader.word0_reads (rdh : RAWDataHeader) {b0 b1 b2 b3 b4 b5 b6 b7 : Byte}
    (h : rdh.Word0.data = [b0, b1, b2, b3, b4, b5, b6, b7]) :
    rdh.Version = .ok b0.val ∧ rdh.BlockLength = .ok (b1.val + 256 * b2.val) ∧
    rdh.FEEID = .ok (b3.val + 256 * b4.val) ∧ rdh.LinkID = .ok b5.val ∧
    rdh.HeaderSize = .ok b6.val := by
  refine ⟨?_, ?_, ?_, ?_, ?_⟩
  · unfold RAWDataHeader.Version ByteArr.at; rw [h]; rfl
  · unfold RAWDataHeader.BlockLength ByteArr.slice; rw [h]
    exact LittleEndian.Uint16_pair b1 b2
  · unfold RAWDataHeader.FEEID ByteArr.slice; rw [h]
    exact LittleEndian.Uint16_pair b3 b4
  · unfold RAWDataHeader.LinkID ByteArr.at; rw [h]; rfl
  · unfold RAWDataHeader.HeaderSize ByteArr.at; rw [h]; rfl

/-- What the two accessors of word 1 compute, in terms of its bytes. -/
theorem RAWDataHeader.word1_reads (rdh : RAWDataHeader) {b0 b1 b2 b3 b4 b5 b6 b7 : Byte}
    (h : rdh.Word1.data = [b0, b1, b2, b3, b4, b5, b6, b7]) :
    rdh.TriggerOrbit = .ok (b0.val + 256 * b1.val + 65536 * b2.val + 16777216 * b3.val) ∧
    rdh.HeartbeatOrbit
      = .ok (b4.val + 256 * b5.val + 65536 * b6.val + 16777216 * b7.val) := by
  refine ⟨?_, ?_⟩
  · unfold RAWDataHeader.TriggerOrbit ByteArr.slice; rw [h]
    exact LittleEndian.Uint32_quad b0 b1 b2 b3
  · unfold RAWDataHeader.HeartbeatOrbit ByteArr.slice; rw [h]
    exact LittleEndian.Uint32_quad b4 b5 b6 b7

/-- What the three accessors that read word 2 compute, in terms of its bytes. -/
theorem RAWDataHeader.word2_reads (rdh : RAWDataHeader) {b0 b1 b2 b3 b4 b5 b6 b7 : Byte}
    (h : rdh.Word2.data = [b0, b1, b2, b3, b4, b5, b6, b7]) :
    rdh.StopCode = .ok b2.val ∧ rdh.DetectorField = .ok (b3.val + 256 * b4.val) ∧
    rdh.Par = .ok (b5.val + 256 * b6.val) := by
  refine ⟨?_, ?_, ?_⟩
  · unfold RAWDataHeader.StopCode ByteArr.at; rw [h]; rfl
  · unfold RAWDataHeader.DetectorField ByteArr.slice; rw [h]
    exact LittleEndian.Uint16_pair b3 b4
  · unfold RAWDataHeader.Par ByteArr.slice; rw [h]
    exact LittleEndian.Uint16_pair b5 b6

/-- What the accessor of word 3 computes, in terms of its bytes. -/
theorem RAWDataHeader.word3_reads (rdh : RAWDataHeader) {b0 b1 b2 b3 b4 b5 b6 b7 : Byte}
    (h : rdh.Word3.data = [b0, b1, b2, b3, b4, b5, b6, b7]) :
    rdh.PagesCounter = .ok (b0.val + 256 * b1.val) := by
  unfold RAWDataHeader.PagesCounter ByteArr.slice; rw [h]
  exact LittleEndian.Uint16_pair b0 b1

/-- Every accessor of the table returns the value `fieldValue` names. -/
theorem RAWDataHeader.read_eq_fieldValue (rdh : RAWDataHeader) (f : Field) :
    rdh.read f = .ok (rdh.fieldValue f) := by
  obtain ⟨a0, a1, a2, a3, a4, a5, a6, a7, h0⟩ := rdh.Word0.data_eight
  obtain ⟨b0, b1, b2, b3, b4, b5, b6, b7, h1⟩ := rdh.Word1.data_eight
  obtain ⟨c0, c1, c2, c3, c4, c5, c6, c7, h2⟩ := rdh.Word2.data_eight
  obtain ⟨d0, d1, d2, d3, d4, d5, d6, d7, h3⟩ := rdh.Word3.data_eight
  obtain ⟨hv, hb, hf, hl, hs⟩ := rdh.word0_reads h0
  obtain ⟨hto, hho⟩ := rdh.word1_reads h1
  obtain ⟨hsc, hdf, hpar⟩ := rdh.word2_reads h2
  have hpc := rdh.word3_reads h3
  cases f <;>
    simp [RAWDataHeader.read, RAWDataHeader.fieldValue, byteAt, h0, h1, h2, h3, hv, hb, hf,
      hl, hs, hto, hho, hsc, hdf, hpar, hpc]

/-! ## The claims -/

/-- C1: for the header whose word 0 is `[0x01,0x08,0x00,0x12,0x34,0x05,0x08,0x00]`,
whatever words 1, 2 and 3 hold, `Version()` is 1, `BlockLength()` is 8, `FEEID()` is
`0x3412`, `LinkID()` is 5 and `HeaderSize()` is 8. -/
theorem C1_example_word0 (w1 w2 w3 : ByteArr 8) :
    RAWDataHeader.Version ⟨exampleWord0, w1, w2, w3⟩ = .ok 1 ∧
    RAWDataHeader.BlockLength ⟨exampleWord0, w1, w2, w3⟩ = .ok 8 ∧
    RAWDataHeader.FEEID ⟨exampleWord0, w1, w2, w3⟩ = .ok 0x3412 ∧
    RAWDataHeader.LinkID ⟨exampleWord0, w1, w2, w3⟩ = .ok 5 ∧
    RAWDataHeader.HeaderSize ⟨exampleWord0, w1, w2, w3⟩ = .ok 8 := by
  have h : (RAWDataHeader.mk exampleWord0 w1 w2 w3).Word0.data
      = [0x01, 0x08, 0x00, 0x12, 0x34, 0x05, 0x08, 0x00] := rfl
  exact RAWDataHeader.word0_reads _ h

/-- C2: with `w0` the little-endian value of word 0, the word-0 accessors return
exactly the bit ranges of the layout: `Version() = w0 mod 2^8`,
`BlockLength() = (w0 / 2^8) mod 2^16`, `FEEID() = (w0 / 2^24) mod 2^16`,
`LinkID() = (w0 / 2^40) mod 2^8`, `HeaderSize() = (w0 / 2^48) mod 2^8`, and
`w0 = Version + 2^8*BlockLength + 2^24*FEEID + 2^40*LinkID + 2^48*HeaderSize
+ 2^56*Word0[7]`. -/
theorem C2_word0_bit_ranges (rdh : RAWDataHeader) :
    ∃ (vers blen fee link size : Nat) (top : Byte),
      rdh.Version = .ok vers ∧ rdh.BlockLength = .ok blen ∧ rdh.FEEID = .ok fee ∧
      rdh.LinkID = .ok link ∧ rdh.HeaderSize = .ok size ∧ rdh.Word0.at 7 = .ok top ∧
      vers = leValue rdh.Word0.data % 2 ^ 8 ∧
      blen = leValue rdh.Word0.data / 2 ^ 8 % 2 ^ 16 ∧
      fee = leValue rdh.Word0.data / 2 ^ 24 % 2 ^ 16 ∧
      link = leValue rdh.Word0.data / 2 ^ 40 % 2 ^ 8 ∧
      size = leValue rdh.Word0.data / 2 ^ 48 % 2 ^ 8 ∧
      leValue rdh.Word0.data
        = vers + 2 ^ 8 * blen + 2 ^ 24 * fee + 2 ^ 40 * link + 2 ^ 48 * size
          + 2 ^ 56 * top.val := by
  obtain ⟨b0, b1, b2, b3, b4, b5, b6, b7, h⟩ := rdh.Word0.data_eight
  obtain ⟨hv, hb, hf, hl, hs⟩ := rdh.word0_reads h
  refine ⟨_, _, _, _, _, b7, hv, hb, hf, hl, hs, ?_, ?_⟩
  · unfold ByteArr.at; rw [h]; rfl
  · rw [h]
    simp only [leValue]
    have h0 := b0.isLt
    have h1 := b1.isLt
    have h2 := b2.isLt
    have h3 := b3.isLt
    have h4 := b4.isLt
    have h5 := b5.isLt
    have h6 := b6.isLt
    have h7 := b7.isLt
    norm_num
    omega

/-- C3: word 1 is two packed 32-bit little-endian orbit counters: with `w1` the
little-endian value of word 1, `TriggerOrbit() = w1 mod 2^32`,
`HeartbeatOrbit() = w1 / 2^32`, and `w1 = TriggerOrbit() + 2^32 * HeartbeatOrbit()`. -/
theorem C3_word1_orbits (rdh : RAWDataHeader) :
    ∃ trg hb : Nat,
      rdh.TriggerOrbit = .ok trg ∧ rdh.HeartbeatOrbit = .ok hb ∧
      trg = leValue rdh.Word1.data % 2 ^ 32 ∧ hb = leValue rdh.Word1.data / 2 ^ 32 ∧
      leValue rdh.Word1.data = trg + 2 ^ 32 * hb := by
  obtain ⟨b0, b1, b2, b3, b4, b5, b6, b7, h⟩ := rdh.Word1.data_eight
  obtain ⟨ht, hh⟩ := rdh.word1_reads h
  refine ⟨_, _, ht, hh, ?_⟩
  rw [h]
  simp only [leValue]
  have h0 := b0.isLt
  have h1 := b1.isLt
  have h2 := b2.isLt
  have h3 := b3.isLt
  have h4 := b4.isLt
  have h5 := b5.isLt
  have h6 := b6.isLt
  have h7 := b7.isLt
  norm_num
  omega

/-- C4: the stop, detector and par fields are read from word 2 and the page counter
from word 3: `StopCode() = Word2[2]`, `DetectorField() = Word2[3] + 256*Word2[4]`,
`Par() = Word2[5] + 256*Word2[6]`, `PagesCounter() = Word3[0] + 256*Word3[1]`. -/
theorem C4_word2_word3_reads (rdh : RAWDataHeader) :
    ∃ s d3 d4 p5 p6 c0 c1 : Byte,
      rdh.Word2.at 2 = .ok s ∧ rdh.Word2.at 3 = .ok d3 ∧ rdh.Word2.at 4 = .ok d4 ∧
      rdh.Word2.at 5 = .ok p5 ∧ rdh.Word2.at 6 = .ok p6 ∧
      rdh.Word3.at 0 = .ok c0 ∧ rdh.Word3.at 1 = .ok c1 ∧
      rdh.StopCode = .ok s.val ∧
      rdh.DetectorField = .ok (d3.val + 256 * d4.val) ∧
      rdh.Par = .ok (p5.val + 256 * p6.val) ∧
      rdh.PagesCounter = .ok (c0.val + 256 * c1.val) := by
  obtain ⟨a0, a1, a2, a3, a4, a5, a6, a7, h2⟩ := rdh.Word2.data_eight
  obtain ⟨b0, b1, b2, b3, b4, b5, b6, b7, h3⟩ := rdh.Word3.data_eight
  obtain ⟨hs, hd, hp⟩ := rdh.word2_reads h2
  refine ⟨a2, a3, a4, a5, a6, b0, b1, ?_, ?_, ?_, ?_, ?_, ?_, ?_, hs, hd, hp,
    rdh.word3_reads h3⟩
  all_goals unfold ByteArr.at
  all_goals first
    | (rw [h2]; rfl)
    | (rw [h3]; rfl)

/-- C5, evaluated at a header whose word 3 is zero and whose word 2 holds 1, 2, 3 at
bytes 2, 3, 5: `StopCode()`, `DetectorField()` and `Par()` return 1, 2 and 3, the bytes
of word 2, whereas the bit ranges of word 3 that the layout diagram assigns to these
fields all hold 0.  Only `PagesCounter()` is the range `w3 mod 2^16` of the diagram. -/
theorem C5_stop_detector_par_read_word2 :
    word2Header.StopCode = .ok 1 ∧ word2Header.DetectorField = .ok 2 ∧
    word2Header.Par = .ok 3 ∧
    leValue word2Header.Word3.data / 2 ^ 16 % 2 ^ 8 = 0 ∧
    leValue word2Header.Word3.data / 2 ^ 24 % 2 ^ 16 = 0 ∧
    leValue word2Header.Word3.data / 2 ^ 40 % 2 ^ 16 = 0 ∧
    word2Header.PagesCounter = .ok (leValue word2Header.Word3.data % 2 ^ 16) := by
  have h2 : word2Header.Word2.data = [0, 0, 1, 2, 0, 3, 0, 0] := rfl
  have h3 : word2Header.Word3.data = [0, 0, 0, 0, 0, 0, 0, 0] := rfl
  obtain ⟨hs, hd, hp⟩ := word2Header.word2_reads h2
  refine ⟨hs, hd, hp, ?_, ?_, ?_, ?_⟩
  · rw [h3]; decide
  · rw [h3]; decide
  · rw [h3]; decide
  · rw [word2Header.word3_reads h3, h3]; rfl

/-- C6 as stated fails: the text of `DataOriginAny` is not the string of four
asterisks. -/
theorem C6_not_four_asterisks : DataOriginAny.String ≠ goString "****" := by
  decide

/-- C6, amended: the text of `DataOriginAny` is the 4-byte string of three asterisks
followed by one zero byte. -/
theorem C6_three_asterisks_and_zero :
    DataOriginAny.String = goString "***" ++ [0] ∧ DataOriginAny.String.length = 4 := by
  decide

/-- C7: the text of `SerializationMethodROOT` is the 8-byte string whose bytes are
'R', 'O', 'O', 'T', 0, 0, 0, 0. -/
theorem C7_root_rendering :
    SerializationMethodROOT.String = goString "ROOT" ++ [0, 0, 0, 0] ∧
    SerializationMethodROOT.String = [82, 79, 79, 84, 0, 0, 0, 0] ∧
    SerializationMethodROOT.String.length = 8 := by
  decide

/-- C8: for a tag of kind HeaderType, SerializationMethod, DataOrigin or
DataDescription, `String()` is exactly the raw bytes of the tag: its length is the
fixed width of the kind (16, 8, 4, 16), its i-th byte is the i-th byte of the tag,
and two tags of one kind have the same text if and only if they are equal. -/
theorem C8_string_is_raw_bytes :
    (∀ t : HeaderType, t.String.length = 16 ∧ ∀ i : Nat, index t.String i = t.arr.at i) ∧
    (∀ t : SerializationMethod,
      t.String.length = 8 ∧ ∀ i : Nat, index t.String i = t.arr.at i) ∧
    (∀ t : DataOrigin, t.String.length = 4 ∧ ∀ i : Nat, index t.String i = t.arr.at i) ∧
    (∀ t : DataDescription,
      t.String.length = 16 ∧ ∀ i : Nat, index t.String i = t.arr.at i) ∧
    (∀ a b : HeaderType, a.String = b.String ↔ a = b) ∧
    (∀ a b : SerializationMethod, a.String = b.String ↔ a = b) ∧
    (∀ a b : DataOrigin, a.String = b.String ↔ a = b) ∧
    (∀ a b : DataDescription, a.String = b.String ↔ a = b) := by
  refine ⟨?_, ?_, ?_, ?_, ?_, ?_, ?_, ?_⟩
  · intro t
    refine ⟨?_, fun i => ?_⟩
    · rw [HeaderType.String, ByteArr.toGoString_eq, t.arr.size_eq]; rfl
    · rw [HeaderType.String, ByteArr.toGoString_eq]; rfl
  · intro t
    refine ⟨?_, fun i => ?_⟩
    · rw [SerializationMethod.String, ByteArr.toGoString_eq, t.arr.size_eq]; rfl
    · rw [SerializationMethod.String, ByteArr.toGoString_eq]; rfl
  · intro t
    refine ⟨?_, fun i => ?_⟩
    · rw [DataOrigin.String, ByteArr.toGoString_eq, t.arr.size_eq]; rfl
    · rw [DataOrigin.String, ByteArr.toGoString_eq]; rfl
  · intro t
    refine ⟨?_, fun i => ?_⟩
    · rw [DataDescription.String, ByteArr.toGoString_eq, t.arr.size_eq]; rfl
    · rw [DataDescription.String, ByteArr.toGoString_eq]; rfl
  · intro a b
    constructor
    · intro h
      rw [HeaderType.String, HeaderType.String, ByteArr.toGoString_eq,
        ByteArr.toGoString_eq] at h
      cases a; cases b
      exact congrArg HeaderType.mk (ByteArr.ext_data h)
    · intro h; rw [h]
  · intro a b
    constructor
    · intro h
      rw [SerializationMethod.String, SerializationMethod.String, ByteArr.toGoString_eq,
        ByteArr.toGoString_eq] at h
      cases a; cases b
      exact congrArg SerializationMethod.mk (ByteArr.ext_data h)
    · intro h; rw [h]
  · intro a b
    constructor
    · intro h
      rw [DataOrigin.String, DataOrigin.String, ByteArr.toGoString_eq,
        ByteArr.toGoString_eq] at h
      cases a; cases b
      exact congrArg DataOrigin.mk (ByteArr.ext_data h)
    · intro h; rw [h]
  · intro a b
    constructor
    · intro h
      rw [DataDescription.String, DataDescription.String, ByteArr.toGoString_eq,
        ByteArr.toGoString_eq] at h
      cases a; cases b
      exact congrArg DataDescription.mk (ByteArr.ext_data h)
    · intro h; rw [h]

/-- C9: on every RAWDataHeader each of the eleven accessors Version, BlockLength,
FEEID, LinkID, HeaderSize, TriggerOrbit, HeartbeatOrbit, StopCode, DetectorField, Par
and PagesCounter returns a value (no index or slice bound leaves its 8-byte word), and
the value fits the accessor's result type. -/
theorem C9_accessors_never_fail (rdh : RAWDataHeader) :
    (∃ v, rdh.Version = .ok v ∧ v < 2 ^ 8) ∧
    (∃ v, rdh.BlockLength = .ok v ∧ v < 2 ^ 16) ∧
    (∃ v, rdh.FEEID = .ok v ∧ v < 2 ^ 16) ∧
    (∃ v, rdh.LinkID = .ok v ∧ v < 2 ^ 8) ∧
    (∃ v, rdh.HeaderSize = .ok v ∧ v < 2 ^ 8) ∧
    (∃ v, rdh.TriggerOrbit = .ok v ∧ v < 2 ^ 32) ∧
    (∃ v, rdh.HeartbeatOrbit = .ok v ∧ v < 2 ^ 32) ∧
    (∃ v, rdh.StopCode = .ok v ∧ v < 2 ^ 8) ∧
    (∃ v, rdh.DetectorField = .ok v ∧ v < 2 ^ 16) ∧
    (∃ v, rdh.Par = .ok v ∧ v < 2 ^ 16) ∧
    (∃ v, rdh.PagesCounter = .ok v ∧ v < 2 ^ 16) := by
  obtain ⟨a0, a1, a2, a3, a4, a5, a6, a7, h0⟩ := rdh.Word0.data_eight
  obtain ⟨b0, b1, b2, b3, b4, b5, b6, b7, h1⟩ := rdh.Word1.data_eight
  obtain ⟨c0, c1, c2, c3, c4, c5, c6, c7, h2⟩ := rdh.Word2.data_eight
  obtain ⟨d0, d1, d2, d3, d4, d5, d6, d7, h3⟩ := rdh.Word3.data_eight
  obtain ⟨hv, hb, hf, hl, hs⟩ := rdh.word0_reads h0
  obtain ⟨hto, hho⟩ := rdh.word1_reads h1
  obtain ⟨hsc, hdf, hpar⟩ := rdh.word2_reads h2
  have hpc := rdh.word3_reads h3
  have := a0.isLt; have := a1.isLt; have := a2.isLt; have := a3.isLt
  have := a4.isLt; have := a5.isLt; have := a6.isLt
  have := b0.isLt; have := b1.isLt; have := b2.isLt; have := b3.isLt
  have := b4.isLt; have := b5.isLt; have := b6.isLt; have := b7.isLt
  have := c2.isLt; have := c3.isLt; have := c4.isLt; have := c5.isLt; have := c6.isLt
  have := d0.isLt; have := d1.isLt
  exact ⟨⟨_, hv, by omega⟩, ⟨_, hb, by omega⟩, ⟨_, hf, by omega⟩, ⟨_, hl, by omega⟩,
    ⟨_, hs, by omega⟩, ⟨_, hto, by omega⟩, ⟨_, hho, by omega⟩, ⟨_, hsc, by omega⟩,
    ⟨_, hdf, by omega⟩, ⟨_, hpar, by omega⟩, ⟨_, hpc, by omega⟩⟩

/-- C10 as stated fails: on the all-zero header none of `TriggerBCID()`,
`TriggerType()` and `HeartbeatBCID()` returns a value. -/
theorem C10_stubs_return_nothing :
    (¬ ∃ v, zeroHeader.TriggerBCID = .ok v) ∧ (¬ ∃ v, zeroHeader.TriggerType = .ok v) ∧
    (¬ ∃ v, zeroHeader.HeartbeatBCID = .ok v) := by
  refine ⟨?_, ?_, ?_⟩ <;> rintro ⟨v, hv⟩ <;> cases hv

/-- C10, amended: `TriggerBCID()`, `TriggerType()` and `HeartbeatBCID()` are exposed on
RAWDataHeader, and on every header each of them panics with the message
"not implemented", reading no byte and returning no value. -/
theorem C10_stubs_always_panic (rdh : RAWDataHeader) :
    rdh.TriggerBCID = .error (.message "not implemented") ∧
    rdh.TriggerType = .error (.message "not implemented") ∧
    rdh.HeartbeatBCID = .error (.message "not implemented") :=
  ⟨rfl, rfl, rfl⟩

/-- C11: field ranges never overlap: when one byte of a RAWDataHeader (byte `i` of
word `k`) is replaced by any value, at most one of the eleven accessors can change its
result: there is one accessor such that every other accessor returns what it returned
before. -/
theorem C11_one_byte_one_accessor (rdh : RAWDataHeader) (k : Fin 4) (i : Fin 8) (v : Byte) :
    ∃ g : Field, ∀ f : Field, f ≠ g → (rdh.setByte k i v).read f = rdh.read f := by
  refine ⟨byteOwner k i, fun f hf => ?_⟩
  rw [RAWDataHeader.read_eq_fieldValue, RAWDataHeader.read_eq_fieldValue]
  congr 1
  fin_cases k <;> fin_cases i <;> cases f <;>
    first
    | exact absurd rfl hf
    | simp [RAWDataHeader.fieldValue, RAWDataHeader.setByte, ByteArr.set, byteAt]

/-- C12: for every NameHeader, whatever its base header and name, `Version()` is 1 and
`HeaderType()` is the 16-byte tag whose first eight bytes are "NameHead" and whose last
eight bytes are zero; two NameHeaders give the same version and header type. -/
theorem C12_nameheader_identity (h h2 : NameHeader) :
    h.Version = 1 ∧
    h.HeaderType.arr.data = goString "NameHead" ++ [0, 0, 0, 0, 0, 0, 0, 0] ∧
    h.HeaderType.arr.data.length = 16 ∧
    h.Version = h2.Version ∧ h.HeaderType = h2.HeaderType := by
  refine ⟨rfl, ?_, ?_, rfl, rfl⟩
  · unfold NameHeader.HeaderType
    decide
  · exact h.HeaderType.arr.size_eq

/-- C13: round trip for RAWDataHeader: for field values that fit their widths,
decoding the header that the encoder packs from them (each field at its bit position,
all other bits zero) succeeds and returns the original field values. -/
theorem C13_decode_encode (f : RDHFields) (hf : f.Valid) :
    (RAWDataHeader.encode f).decode = .ok f := by
  obtain ⟨h1, h2, h3, h4, h5, h6, h7, h8, h9, h10, h11⟩ := hf
  obtain ⟨hv, hb, hfe, hl, hs⟩ := (RAWDataHeader.encode f).word0_reads rfl
  obtain ⟨hto, hho⟩ := (RAWDataHeader.encode f).word1_reads rfl
  obtain ⟨hsc, hdf, hpar⟩ := (RAWDataHeader.encode f).word2_reads rfl
  have hpc := (RAWDataHeader.encode f).word3_reads rfl
  unfold RAWDataHeader.decode
  rw [hv, hb, hfe, hl, hs, hto, hho, hsc, hdf, hpar, hpc]
  show Except.ok _ = Except.ok f
  congr 1
  cases f
  simp only [RDHFields.mk.injEq] at *
  refine ⟨?_, ?_, ?_, ?_, ?_, ?_, ?_, ?_, ?_, ?_, ?_⟩ <;> omega

/-- C13 at the sample field values, which fit their widths. -/
theorem C13_decode_encode_sample :
    sampleFields.Valid ∧ (RAWDataHeader.encode sampleFields).decode = .ok sampleFields :=
  ⟨by unfold RDHFields.Valid; decide,
   C13_decode_encode sampleFields (by unfold RDHFields.Valid; decide)⟩

/-- C14: the tag kinds have fixed widths: every `BaseHeader.magic` and every DataOrigin
has 4 bytes, every DataDescription and every HeaderType has 16 bytes, every
SerializationMethod has 8 bytes; the width of HeaderType is 16, which is not the 8 of
`sizeHeaderDescriptionString`. -/
theorem C14_tag_widths :
    (∀ b : BaseHeader, b.magic.data.length = 4) ∧
    (∀ d : DataOrigin, d.arr.data.length = 4) ∧
    (∀ d : DataDescription, d.arr.data.length = 16) ∧
    (∀ t : HeaderType, t.arr.data.length = 16) ∧
    (∀ m : SerializationMethod, m.arr.data.length = 8) ∧
    sizeHeaderDescriptionString = 8 ∧
    (∀ t : HeaderType, t.arr.data.length ≠ sizeHeaderDescriptionString) := by
  refine ⟨fun b => b.magic.size_eq, fun d => d.arr.size_eq, fun d => d.arr.size_eq,
    fun t => t.arr.size_eq, fun m => m.arr.size_eq, rfl, fun t => ?_⟩
  rw [t.arr.size_eq]
  decide

/-- C15: the fields of BaseHeader lie at offsets 0, 4, 8, 12, 16, 32 and fill 40
bytes; the fields of DataHeader (the base header first) lie at offsets 0, 40, 56, 60,
64, 72, 80 and fill 88 bytes; these offsets are the ones of a layout with no padding
at all, and every field starts at a multiple of its alignment (4 for the 4-byte
integers, 8 for the 8-byte integers), so that alignment inserts no gap. -/
theorem C15_struct_offsets :
    alignedOffsets 0 baseHeaderFields = [0, 4, 8, 12, 16, 32] ∧
    structSize baseHeaderFields = 40 ∧
    alignedOffsets 0 dataHeaderFields = [0, 40, 56, 60, 64, 72, 80] ∧
    structSize dataHeaderFields = 88 ∧
    alignedOffsets 0 baseHeaderFields = packedOffsets 0 baseHeaderFields ∧
    alignedOffsets 0 dataHeaderFields = packedOffsets 0 dataHeaderFields ∧
    (baseHeaderFields.map FieldLayout.size).sum = 40 ∧
    (dataHeaderFields.map FieldLayout.size).sum = 88 ∧
    (∀ p ∈ List.zip baseHeaderFields (packedOffsets 0 baseHeaderFields),
      p.2 % p.1.align = 0) ∧
    (∀ p ∈ List.zip dataHeaderFields (packedOffsets 0 dataHeaderFields),
      p.2 % p.1.align = 0) := by
  decide

/-- C16: the eleven implemented accessors determine exactly 22 of the 32 bytes: two
RAWDataHeaders give the same result for every one of the eleven accessors if and only
if they agree on bytes 0..6 of word 0, on all of word 1, on bytes 2..6 of word 2 and on
bytes 0..1 of word 3; the other ten bytes influence no accessor. -/
theorem C16_accessors_determine_22_bytes (a b : RAWDataHeader) :
    (a.Version = b.Version ∧ a.BlockLength = b.BlockLength ∧ a.FEEID = b.FEEID ∧
      a.LinkID = b.LinkID ∧ a.HeaderSize = b.HeaderSize ∧
      a.TriggerOrbit = b.TriggerOrbit ∧ a.HeartbeatOrbit = b.HeartbeatOrbit ∧
      a.StopCode = b.StopCode ∧ a.DetectorField = b.DetectorField ∧ a.Par = b.Par ∧
      a.PagesCounter = b.PagesCounter) ↔
    (a.Word0.data.take 7 = b.Word0.data.take 7 ∧ a.Word1.data = b.Word1.data ∧
      (a.Word2.data.drop 2).take 5 = (b.Word2.data.drop 2).take 5 ∧
      a.Word3.data.take 2 = b.Word3.data.take 2) := by
  obtain ⟨p0, p1, p2, p3, p4, p5, p6, p7, ha0⟩ := a.Word0.data_eight
  obtain ⟨q0, q1, q2, q3, q4, q5, q6, q7, ha1⟩ := a.Word1.data_eight
  obtain ⟨r0, r1, r2, r3, r4, r5, r6, r7, ha2⟩ := a.Word2.data_eight
  obtain ⟨s0, s1, s2, s3, s4, s5, s6, s7, ha3⟩ := a.Word3.data_eight
  obtain ⟨t0, t1, t2, t3, t4, t5, t6, t7, hb0⟩ := b.Word0.data_eight
  obtain ⟨u0, u1, u2, u3, u4, u5, u6, u7, hb1⟩ := b.Word1.data_eight
  obtain ⟨v0, v1, v2, v3, v4, v5, v6, v7, hb2⟩ := b.Word2.data_eight
  obtain ⟨w0, w1, w2, w3, w4, w5, w6, w7, hb3⟩ := b.Word3.data_eight
  obtain ⟨e1, e2, e3, e4, e5⟩ := a.word0_reads ha0
  obtain ⟨e6, e7⟩ := a.word1_reads ha1
  obtain ⟨e8, e9, e10⟩ := a.word2_reads ha2
  have e11 := a.word3_reads ha3
  obtain ⟨g1, g2, g3, g4, g5⟩ := b.word0_reads hb0
  obtain ⟨g6, g7⟩ := b.word1_reads hb1
  obtain ⟨g8, g9, g10⟩ := b.word2_reads hb2
  have g11 := b.word3_reads hb3
  rw [e1, e2, e3, e4, e5, e6, e7, e8, e9, e10, e11, g1, g2, g3, g4, g5, g6, g7, g8, g9,
    g10, g11, ha0, ha1, ha2, ha3, hb0, hb1, hb2, hb3]
  simp only [Except.ok.injEq, List.take, List.drop, List.cons.injEq, and_true,
    Fin.ext_iff]
  omega

/-- C17: the sentinel constants of each tag kind are pairwise distinct: the 18
DataOrigin constants, the 8 DataDescription constants and the 5 SerializationMethod
constants, and so are their `String()` renderings. -/
theorem C17_sentinels_pairwise_distinct :
    dataOrigins.length = 18 ∧ dataDescriptions.length = 8 ∧
    serializationMethods.length = 5 ∧
    dataOrigins.Pairwise (fun a b => a ≠ b) ∧
    dataDescriptions.Pairwise (fun a b => a ≠ b) ∧
    serializationMethods.Pairwise (fun a b => a ≠ b) ∧
    (dataOrigins.map DataOrigin.String).Pairwise (fun a b => a ≠ b) ∧
    (dataDescriptions.map DataDescription.String).Pairwise (fun a b => a ≠ b) ∧
    (serializationMethods.map SerializationMethod.String).Pairwise (fun a b => a ≠ b) := by
  refine ⟨rfl, rfl, rfl, ?_, ?_, ?_, ?_, ?_, ?_⟩
  · decide
  · decide
  · decide
  · decide
  · decide
  · decide

/-- C18: the three "Any" sentinels are not filled alike: `SerializationMethodAny` is 8
asterisks, `DataDescriptionAny` is 15 asterisks and one zero byte, `DataOriginAny` is 3
asterisks and one zero byte; and each of the 18 DataOrigin constants has three
non-zero bytes followed by a zero fourth byte. -/
theorem C18_any_sentinels_fill :
    SerializationMethodAny.arr.data = List.replicate 8 (ch '*') ∧
    DataDescriptionAny.arr.data = List.replicate 15 (ch '*') ++ [0] ∧
    DataOriginAny.arr.data = List.replicate 3 (ch '*') ++ [0] ∧
    dataOrigins.length = 18 ∧
    (∀ d ∈ dataOrigins, (∀ b ∈ d.arr.data.take 3, b ≠ 0) ∧ d.arr.data.drop 3 = [0]) := by
  refine ⟨?_, ?_, ?_, rfl, ?_⟩
  · decide
  · decide
  · decide
  · set_option maxRecDepth 4000 in
    decide

end O2dh
